import Mathlib

/-!
Shallow embedding of `src/lib/luxafor.js` (jonathonball/node-luxafor).

The file models the frame encoder, the reply classifier, and the
read-with-timeout arbitration logic of the `Luxafor` class, and proves
the frozen claims about them.

Node `Buffer`s are modelled as a length together with a contents
function `Nat → Nat`; `new Buffer(size)` allocates *uninitialized*
memory, which is modelled by taking the initial contents function as
an arbitrary parameter (`junk`).
-/

namespace Luxafor

/-- Modelled from the spec: the byte-offset constants `API.BYTE` of the
missing `lib/constants.js`.  Values are the per-tag layout table of the
spec (§4.1): offset 0 is the opcode, then the documented field offsets. -/
def BYTE_COMMAND : Nat := 0

/-- Modelled from the spec: `API.BYTE.LED` (offset 1 in the layout table). -/
def BYTE_LED : Nat := 1

/-- Modelled from the spec: `API.BYTE.RED` (offset 2). -/
def BYTE_RED : Nat := 2

/-- Modelled from the spec: `API.BYTE.GREEN` (offset 3). -/
def BYTE_GREEN : Nat := 3

/-- Modelled from the spec: `API.BYTE.BLUE` (offset 4). -/
def BYTE_BLUE : Nat := 4

/-- Modelled from the spec: `API.BYTE.TIME` (offset 5). -/
def BYTE_TIME : Nat := 5

/-- Modelled from the spec: `API.BYTE.STROBE_PADDING` (offset 6 of the
STROBE layout, documented as padding that is always written 0). -/
def BYTE_STROBE_PADDING : Nat := 6

/-- Modelled from the spec: `API.BYTE.STROBE_REPEAT` (offset 7 of STROBE). -/
def BYTE_STROBE_REPEAT : Nat := 7

/-- Modelled from the spec: `API.BYTE.WAVE_TYPE` (offset 1 of WAVE). -/
def BYTE_WAVE_TYPE : Nat := 1

/-- Modelled from the spec: `API.BYTE.WAVE_PADDING` (offset 5 of WAVE,
documented as padding that is always written 0). -/
def BYTE_WAVE_PADDING : Nat := 5

/-- Modelled from the spec: `API.BYTE.WAVE_REPEAT` (offset 6 of WAVE). -/
def BYTE_WAVE_REPEAT : Nat := 6

/-- Modelled from the spec: `API.BYTE.WAVE_SPEED` (offset 7 of WAVE). -/
def BYTE_WAVE_SPEED : Nat := 7

/-- Modelled from the spec: `API.BYTE.PATTERN_ID` (offset 1 of PATTERN). -/
def BYTE_PATTERN_ID : Nat := 1

/-- Modelled from the spec: `API.BYTE.PATTERN_REPEAT` (offset 2 of PATTERN). -/
def BYTE_PATTERN_REPEAT : Nat := 2

/-- Modelled from the spec: the opcode constants `API.COMMAND` of the
missing `lib/constants.js`.  The claims use the opcodes symbolically;
numeric values only need to be byte-sized.  `SET_COLOR_NO_FADE = 1` and
`STROBE = 3` agree with the legacy encoder at the bottom of
`src/lib/luxafor.js` (`setColor` writes opcode 1, `flashColor` opcode 3). -/
def COMMAND_SET_COLOR_SIMPLE : Nat := 0

/-- Modelled from the spec: `API.COMMAND.SET_COLOR_NO_FADE` (legacy
encoder writes 1 for the 5-byte no-fade frame). -/
def COMMAND_SET_COLOR_NO_FADE : Nat := 1

/-- Modelled from the spec: `API.COMMAND.SET_COLOR_FADE`. -/
def COMMAND_SET_COLOR_FADE : Nat := 2

/-- Modelled from the spec: `API.COMMAND.STROBE` (legacy encoder writes 3). -/
def COMMAND_STROBE : Nat := 3

/-- Modelled from the spec: `API.COMMAND.WAVE`. -/
def COMMAND_WAVE : Nat := 4

/-- Modelled from the spec: `API.COMMAND.PATTERN`. -/
def COMMAND_PATTERN : Nat := 6

/-- Modelled from the spec: `API.COMMAND.DEVICE_INFO`; the spec only uses
it symbolically (the DeviceInfo predicate tests "byte 0 equals the
DEVICE_INFO opcode"). -/
def COMMAND_DEVICE_INFO : Nat := 0x80

/-- The timeout constant passed to `PromiseVsTimeout.commit` by
`readFromDeviceUntil` (src/lib/luxafor.js line 90). -/
def READ_UNTIL_TIMEOUT_MS : Nat := 1900

/-- A Node `Buffer`: a fixed length and a contents function.
`new Buffer(size)` leaves the contents arbitrary (uninitialized). -/
structure Buf where
  size : Nat
  byteAt : Nat → Nat

/-- `buf.writeUInt8(data, offset)` with the default assert behavior:
fails (throws a `RangeError`) unless `data ≤ 255` and the offset is in
bounds; otherwise updates the one byte. -/
def writeUInt8 (b : Buf) (data off : Nat) : Option Buf :=
  if data ≤ 255 ∧ off + 1 ≤ b.size then
    some { size := b.size, byteAt := fun i => if i = off then data else b.byteAt i }
  else
    none

/-- The materialized byte sequence of a buffer, as transferred on the wire. -/
def Buf.toFrame (b : Buf) : List Nat :=
  (List.range b.size).map b.byteAt

/-- `resetWriteBuffer(size)`: discard the previous buffer and allocate a
fresh *uninitialized* one; `junk` is the arbitrary initial memory contents. -/
def resetWriteBuffer (size : Nat) (junk : Nat → Nat) : Buf :=
  { size := size, byteAt := junk }

/-- Encoder state: the in-progress write buffer plus the log of offsets
written so far (the log records each `setWriteBufferByte` call). -/
structure EncState where
  buffer : Buf
  writes : List Nat

/-- `setWriteBufferByte(byte, data)`: write one byte of the write buffer
(the source delegates to `this.buffer.writeUInt8(data, byte)`), recording
the offset in the write log. -/
def setWriteBufferByte (st : EncState) (byte data : Nat) : Option EncState :=
  (writeUInt8 st.buffer data byte).map fun b => { buffer := b, writes := st.writes ++ [byte] }

/-- Start an encode: `resetWriteBuffer(size)` with empty write log. -/
def startEnc (size : Nat) (junk : Nat → Nat) : EncState :=
  { buffer := resetWriteBuffer size junk, writes := [] }

/-- `simpleColor(char)`: the frame-building part of the method
(buffer of size 2; opcode then the preset color at literal offset 0x01). -/
def simpleColor (junk : Nat → Nat) (char : Nat) : Option EncState :=
  (setWriteBufferByte (startEnc 2 junk) BYTE_COMMAND COMMAND_SET_COLOR_SIMPLE).bind fun s =>
  setWriteBufferByte s 0x01 char

/-- `color(led, red, green, blue)`: the frame-building part of the method. -/
def color (junk : Nat → Nat) (led red green blue : Nat) : Option EncState :=
  (setWriteBufferByte (startEnc 5 junk) BYTE_COMMAND COMMAND_SET_COLOR_NO_FADE).bind fun s =>
  (setWriteBufferByte s BYTE_LED led).bind fun s =>
  (setWriteBufferByte s BYTE_RED red).bind fun s =>
  (setWriteBufferByte s BYTE_GREEN green).bind fun s =>
  setWriteBufferByte s BYTE_BLUE blue

/-- `colorFade(led, red, green, blue, time)`: the frame-building part. -/
def colorFade (junk : Nat → Nat) (led red green blue time : Nat) : Option EncState :=
  (setWriteBufferByte (startEnc 6 junk) BYTE_COMMAND COMMAND_SET_COLOR_FADE).bind fun s =>
  (setWriteBufferByte s BYTE_LED led).bind fun s =>
  (setWriteBufferByte s BYTE_RED red).bind fun s =>
  (setWriteBufferByte s BYTE_GREEN green).bind fun s =>
  (setWriteBufferByte s BYTE_BLUE blue).bind fun s =>
  setWriteBufferByte s BYTE_TIME time

/-- `strobe(led, red, green, blue, time, repeat)`: the frame-building part. -/
def strobe (junk : Nat → Nat) (led red green blue time rpt : Nat) : Option EncState :=
  (setWriteBufferByte (startEnc 8 junk) BYTE_COMMAND COMMAND_STROBE).bind fun s =>
  (setWriteBufferByte s BYTE_LED led).bind fun s =>
  (setWriteBufferByte s BYTE_RED red).bind fun s =>
  (setWriteBufferByte s BYTE_GREEN green).bind fun s =>
  (setWriteBufferByte s BYTE_BLUE blue).bind fun s =>
  (setWriteBufferByte s BYTE_TIME time).bind fun s =>
  (setWriteBufferByte s BYTE_STROBE_PADDING 0).bind fun s =>
  setWriteBufferByte s BYTE_STROBE_REPEAT rpt

/-- `wave(type, red, green, blue, repeat, speed)`: the frame-building part. -/
def wave (junk : Nat → Nat) (wtype red green blue rpt speed : Nat) : Option EncState :=
  (setWriteBufferByte (startEnc 8 junk) BYTE_COMMAND COMMAND_WAVE).bind fun s =>
  (setWriteBufferByte s BYTE_WAVE_TYPE wtype).bind fun s =>
  (setWriteBufferByte s BYTE_RED red).bind fun s =>
  (setWriteBufferByte s BYTE_GREEN green).bind fun s =>
  (setWriteBufferByte s BYTE_BLUE blue).bind fun s =>
  (setWriteBufferByte s BYTE_WAVE_PADDING 0).bind fun s =>
  (setWriteBufferByte s BYTE_WAVE_REPEAT rpt).bind fun s =>
  setWriteBufferByte s BYTE_WAVE_SPEED speed

/-- `pattern(pattern, repeat)`: the frame-building part. -/
def pattern (junk : Nat → Nat) (ptn rpt : Nat) : Option EncState :=
  (setWriteBufferByte (startEnc 3 junk) BYTE_COMMAND COMMAND_PATTERN).bind fun s =>
  (setWriteBufferByte s BYTE_PATTERN_ID ptn).bind fun s =>
  setWriteBufferByte s BYTE_PATTERN_REPEAT rpt

/-- `getDeviceInfo()`: the frame-building part (a 1-byte frame holding
only the DEVICE_INFO opcode), before the promise is created. -/
def deviceInfoFrame (junk : Nat → Nat) : Option EncState :=
  setWriteBufferByte (startEnc 1 junk) BYTE_COMMAND COMMAND_DEVICE_INFO

/-- Lexicographic byte comparison of `Buffer.compare`: 0 when equal, -1
when the first slice sorts before the second, 1 when after; a proper
prefix sorts before. -/
def lexCompareBytes : List Nat → List Nat → Int
  | [], [] => 0
  | [], _ :: _ => -1
  | _ :: _, [] => 1
  | x :: xs, y :: ys =>
    if x < y then -1 else if y < x then 1 else lexCompareBytes xs ys

/-- `buf.compare(target, 0, 2, 0, 2)`: compare the first two bytes of
`buf` against the first two bytes of `target` (Node semantics: the
source range `[0, 2)` of `buf` versus the target range `[0, 2)`). -/
def bufCompare2 (buf target : List Nat) : Int :=
  lexCompareBytes (buf.take 2) (target.take 2)

/-- JavaScript truthiness of a number: `if (x)` takes the branch iff
`x ≠ 0`. -/
def jsTruthyInt (x : Int) : Bool :=
  x != 0

/-- `Luxafor.isDeviceInfoBuffer(buffer)`: true iff byte 0 of the buffer
(`buffer.readUInt8(0, 1)`) equals `API.COMMAND.DEVICE_INFO`. -/
def isDeviceInfoBuffer (buffer : List Nat) : Bool :=
  buffer.getD 0 0 == COMMAND_DEVICE_INFO

/-- The loop of `Luxafor.findApiReply`: walk the `API.REPLY` table in
enumeration order (`Object.keys` order) and return the first key whose
signature's first two bytes equal the buffer's first two bytes
(`buffer.compare(value, 0, 2, 0, 2) === 0`). -/
def findApiReplyLoop (buffer : List Nat) : List (String × List Nat) → Option String
  | [] => none
  | (key, value) :: rest =>
    if bufCompare2 buffer value = 0 then some key else findApiReplyLoop buffer rest

/-- The message of the `Error` thrown by `findApiReply` on an
unrecognized reply. -/
def unrecognizedReplyMsg : String :=
  "The luxafor light replied with a byte we did not recognize. Please report."

/-- `Luxafor.findApiReply(buffer)`: first matching reply signature;
otherwise the DeviceInfo fallback; otherwise `throw new Error(...)`
(modelled as `Except.error`).  The `API.REPLY` table lives in the
missing `lib/constants.js`, so the function is parametric in it. -/
def findApiReply (reply : List (String × List Nat)) (buffer : List Nat) :
    Except String String :=
  match findApiReplyLoop buffer reply with
  | some key => .ok key
  | none =>
    if isDeviceInfoBuffer buffer then .ok "DEVICE_INFO"
    else .error unrecognizedReplyMsg

/-- Modelled from the spec: a sample `API.REPLY` table standing in for
the one in the missing `lib/constants.js` ("an enumerated set of
recognized device-reply signatures, each signature = the first two
bytes of a reply frame").  The concrete keys and bytes are
illustrative; every theorem quantifying over the table holds for the
real one as well. -/
def sampleReplyTable : List (String × List Nat) :=
  [("GENERIC_OK", [0x00, 0x40]), ("BUTTON", [0x83, 0x01])]

/-- ASCII uppercasing of one character, as JavaScript's
`String.prototype.toUpperCase` does for the ASCII keys of the API
tables. -/
def charUpper (c : Char) : Char :=
  if 97 ≤ c.toNat ∧ c.toNat ≤ 122 then Char.ofNat (c.toNat - 32) else c

/-- `s.toUpperCase()` on the ASCII strings used as API table keys. -/
def jsToUpper (s : String) : String :=
  String.mk (s.data.map charUpper)

/-- `Luxafor.getApiValue(haystack, needle)`: uppercase both arguments,
index the API constants object by the haystack name (a `TypeError` is
thrown when no such table exists — modelled as `Except.error`), then
return the entry when `Needle in API[Haystack]`, else `null`
(modelled as `none`). -/
def getApiValue (api : List (String × List (String × Nat))) (haystack needle : String) :
    Except String (Option Nat) :=
  match api.lookup (jsToUpper haystack) with
  | some table => .ok (table.lookup (jsToUpper needle))
  | none => .error "TypeError"

/-- Outcome of an armed wait: resolved with a frame, timed out, or
still pending (the promise never settled). -/
inductive Outcome where
  | resolved (frame : List Nat)
  | timedOut
  | pending
deriving DecidableEq, Repr

/-- Caller-visible endpoint actions performed by a read-expecting call,
in order. -/
inductive Action where
  | removeAllListenersData
  | addDataListener
  | startPoll
  | stopPoll
deriving DecidableEq, Repr

/-- One asynchronous wake-up during a wait armed by
`readFromDeviceUntil`: either the read endpoint delivers a data frame,
or the `PromiseVsTimeout` timer fires.  The chronological order of the
list encodes the (nondeterministic) interleaving. -/
inductive Event where
  | data (frame : List Nat)
  | timerFired
deriving DecidableEq, Repr

/-- The accept predicate `readFromDeviceUntil` installs on the data
listener: `if (buffer.compare(type, 0, 2, 0, 2))` — the *truthiness* of
`Buffer.compare`, which is nonzero exactly when the two-byte prefixes
differ. -/
def readUntilAccept (type buffer : List Nat) : Bool :=
  jsTruthyInt (bufCompare2 buffer type)

/-- Modelled from the spec: listener actions after the wait's promise
has already timed out.  `readFromDeviceUntil` never removes its data
listener and only an *accepted* frame stops the poll, so post-timeout
data events still run the listener; an accepted one stops the poll
(and calls `resolve`, a no-op on a settled promise). -/
def lingering (accept : List Nat → Bool) : List Event → List Action
  | [] => []
  | .timerFired :: rest => lingering accept rest
  | .data b :: rest =>
    if accept b then [.stopPoll] else lingering accept rest

/-- Modelled from the spec: the race semantics of
`PromiseVsTimeout.commit` (missing `lib/promise-vs-timeout.js`): the
promise settles on the first decisive event — the first accepted data
frame (resolving, after the listener calls `stopPoll`), or the timer
(timing out).  The executor's listener performs no cleanup on either
path beyond `stopPoll` on a match, and stays attached afterwards. -/
def processRead (accept : List Nat → Bool) : List Event → Outcome × List Action
  | [] => (.pending, [])
  | .timerFired :: rest => (.timedOut, lingering accept rest)
  | .data b :: rest =>
    if accept b then (.resolved b, [.stopPoll]) else processRead accept rest

/-- `readFromDeviceUntil(type)` run against an event interleaving:
the executor first does `removeAllListeners('data')`, installs the data
listener, and `startPoll(2, 8)`; then the events are arbitrated by
`PromiseVsTimeout` with the 1900 ms timer. -/
def readFromDeviceUntilRun (type : List Nat) (events : List Event) :
    Outcome × List Action :=
  let r := processRead (readUntilAccept type) events
  (r.1, [.removeAllListenersData, .addDataListener, .startPoll] ++ r.2)

/-- The wait part of `getDeviceInfo()` run against the data frames the
transport delivers: a bare `new Promise` — *no* timer is armed, so the
only wake-ups are data events, and the promise resolves on the first
frame satisfying `isDeviceInfoBuffer`. -/
def getDeviceInfoRun : List (List Nat) → Outcome × List Action
  | [] => (.pending, [])
  | b :: rest =>
    if isDeviceInfoBuffer b then (.resolved b, [.stopPoll]) else getDeviceInfoRun rest

/-- The caller-visible action log of a full `getDeviceInfo` wait:
`removeAllListeners('data')`, install the listener, `startPoll(2, 8)`,
then whatever the listener does. -/
def getDeviceInfoActions (frames : List (List Nat)) : List Action :=
  [.removeAllListenersData, .addDataListener, .startPoll] ++ (getDeviceInfoRun frames).2

/-- Arming a wait on the read endpoint: `removeAllListeners('data')`
unconditionally clears every registered data listener, then `on('data', …)`
registers exactly the new one.  A listener is a wait identifier paired
with its accept predicate. -/
def armDataListener (prev : List (Nat × (List Nat → Bool))) (l : Nat × (List Nat → Bool)) :
    List (Nat × (List Nat → Bool)) :=
  let _ := prev
  [l]

/-- The wait identifiers whose success path fires when the endpoint
delivers `b` to the currently registered listeners. -/
def firingWaits (listeners : List (Nat × (List Nat → Bool))) (b : List Nat) : List Nat :=
  listeners.filterMap fun p => if p.2 b then some p.1 else none

/-- The transmitted frame of a finished encode (`none` when a
`writeUInt8` along the way threw). -/
def encFrame (e : Option EncState) : Option (List Nat) :=
  e.map fun s => s.buffer.toFrame

/-- The write log of a finished encode: the buffer offsets written, in
call order. -/
def encWrites (e : Option EncState) : Option (List Nat) :=
  e.map fun s => s.writes

/-! ### Helper lemmas -/

/-- A key produced by the `findApiReply` loop is a key of the table. -/
theorem findApiReplyLoop_mem {buffer : List Nat} :
    ∀ {reply : List (String × List Nat)} {key : String},
      findApiReplyLoop buffer reply = some key → key ∈ reply.map Prod.fst := by
  intro reply
  induction reply with
  | nil => intro key h; simp [findApiReplyLoop] at h
  | cons p rest ih =>
    intro key h
    by_cases hc : bufCompare2 buffer p.2 = 0
    · simp [findApiReplyLoop, hc] at h
      simp [h]
    · simp [findApiReplyLoop, hc] at h
      simpa using Or.inr (ih h)

/-- If no signature of the table matches the buffer's two-byte prefix,
the `findApiReply` loop finds nothing. -/
theorem findApiReplyLoop_none {buffer : List Nat} :
    ∀ {reply : List (String × List Nat)},
      (∀ p ∈ reply, bufCompare2 buffer p.2 ≠ 0) → findApiReplyLoop buffer reply = none := by
  intro reply
  induction reply with
  | nil => intro _; rfl
  | cons p rest ih =>
    intro h
    have hp : bufCompare2 buffer p.2 ≠ 0 := h p (List.mem_cons_self p rest)
    simp [findApiReplyLoop, hp]
    exact ih fun q hq => h q (List.mem_cons_of_mem p hq)

/-- Buffers agreeing on their two-byte prefix agree at byte 0. -/
theorem take2_getD0 {b1 b2 : List Nat} (h : b1.take 2 = b2.take 2) :
    b1.getD 0 0 = b2.getD 0 0 := by
  cases b1 with
  | nil => cases b2 with
    | nil => rfl
    | cons y ys => simp [List.take] at h
  | cons x xs => cases b2 with
    | nil => simp [List.take] at h
    | cons y ys =>
      simp [List.take] at h
      simp [h.1]

/-- Every action the `readFromDeviceUntil` listener performs after the
timer has settled the wait is a `stopPoll`. -/
theorem lingering_only_stopPoll {accept : List Nat → Bool} :
    ∀ {events : List Event} {a : Action}, a ∈ lingering accept events → a = .stopPoll := by
  intro events
  induction events with
  | nil => intro a h; simp [lingering] at h
  | cons e rest ih =>
    intro a h
    cases e with
    | timerFired => exact ih h
    | data b =>
      by_cases hb : accept b = true
      · simp [lingering, hb] at h; simp [h]
      · simp only [Bool.not_eq_true] at hb
        simp [lingering, hb] at h
        exact ih h

/-- Every action the armed wait performs while settling is a `stopPoll`:
the listener never unsubscribes itself and never touches the arming
actions again. -/
theorem processRead_only_stopPoll {accept : List Nat → Bool} :
    ∀ {events : List Event} {a : Action},
      a ∈ (processRead accept events).2 → a = .stopPoll := by
  intro events
  induction events with
  | nil => intro a h; simp [processRead] at h
  | cons e rest ih =>
    intro a h
    cases e with
    | timerFired =>
      simp [processRead] at h
      exact lingering_only_stopPoll h
    | data b =>
      by_cases hb : accept b = true
      · simp [processRead, hb] at h; simp [h]
      · simp only [Bool.not_eq_true] at hb
        simp [processRead, hb] at h
        exact ih h

/-- If no accepted frame precedes the timer, the wait times out —
whatever arrives afterwards (post-settlement events change nothing the
caller sees). -/
theorem processRead_timer_first {accept : List Nat → Bool} :
    ∀ {pre : List Event} (post : List Event),
      (∀ b, Event.data b ∈ pre → accept b = false) →
      (processRead accept (pre ++ Event.timerFired :: post)).1 = .timedOut := by
  intro pre
  induction pre with
  | nil => intro post _; simp [processRead]
  | cons e rest ih =>
    intro post h
    cases e with
    | timerFired => simp [processRead]
    | data b =>
      have hb : accept b = false := h b (List.mem_cons_self _ _)
      simp only [List.cons_append, processRead, hb, Bool.false_eq_true, if_false]
      exact ih post fun c hc => h c (List.mem_cons_of_mem _ hc)

/-- If an accepted frame arrives before the timer and before any other
accepted frame, the wait resolves with exactly that frame — whatever
arrives afterwards. -/
theorem processRead_data_first {accept : List Nat → Bool} :
    ∀ {pre : List Event} {b : List Nat} (post : List Event),
      (∀ c, Event.data c ∈ pre → accept c = false) →
      Event.timerFired ∉ pre →
      accept b = true →
      (processRead accept (pre ++ Event.data b :: post)).1 = .resolved b := by
  intro pre
  induction pre with
  | nil => intro b post _ _ hb; simp [processRead, hb]
  | cons e rest ih =>
    intro b post h ht hb
    cases e with
    | timerFired => exact absurd (List.mem_cons_self _ _) ht
    | data c =>
      have hc : accept c = false := h c (List.mem_cons_self _ _)
      simp only [List.cons_append, processRead, hc, Bool.false_eq_true, if_false]
      exact ih post (fun d hd => h d (List.mem_cons_of_mem _ hd))
        (fun hm => ht (List.mem_cons_of_mem _ hm)) hb

/-- A wait whose interleaving contains the timer event never stays
pending: it settles (exactly once, being a function of the trace). -/
theorem processRead_ne_pending {accept : List Nat → Bool} :
    ∀ {events : List Event}, Event.timerFired ∈ events →
      (processRead accept events).1 ≠ .pending := by
  intro events
  induction events with
  | nil => intro h; simp at h
  | cons e rest ih =>
    intro h
    cases e with
    | timerFired => simp [processRead]
    | data b =>
      have hm : Event.timerFired ∈ rest := by
        rcases List.mem_cons.mp h with h' | h'
        · exact absurd h' (by simp)
        · exact h'
      by_cases hb : accept b = true
      · simp [processRead, hb]
      · simp only [Bool.not_eq_true] at hb
        simp only [processRead, hb, Bool.false_eq_true, if_false]
        exact ih hm

/-- A `getDeviceInfo` wait that never sees a DeviceInfo frame does
nothing and stays pending: no timer exists that could settle it. -/
theorem getDeviceInfoRun_pending :
    ∀ {frames : List (List Nat)},
      (∀ b ∈ frames, isDeviceInfoBuffer b = false) →
      getDeviceInfoRun frames = (.pending, []) := by
  intro frames
  induction frames with
  | nil => intro _; rfl
  | cons b rest ih =>
    intro h
    have hb : isDeviceInfoBuffer b = false := h b (List.mem_cons_self _ _)
    simp only [getDeviceInfoRun, hb, Bool.false_eq_true, if_false]
    exact ih fun c hc => h c (List.mem_cons_of_mem _ hc)

/-- The `findApiReply` loop reads the buffer only through its two-byte
prefix. -/
theorem findApiReplyLoop_congr {b1 b2 : List Nat} (h : b1.take 2 = b2.take 2) :
    ∀ reply, findApiReplyLoop b1 reply = findApiReplyLoop b2 reply := by
  intro reply
  induction reply with
  | nil => rfl
  | cons p rest ih =>
    simp only [findApiReplyLoop, bufCompare2, h, ih]

/-- The `findApiReply` loop returns the first table key whose signature
matches the buffer's two-byte prefix, in enumeration order. -/
theorem findApiReplyLoop_first {buffer sig : List Nat} {key : String} :
    ∀ {pre : List (String × List Nat)} (post : List (String × List Nat)),
      (∀ p ∈ pre, bufCompare2 buffer p.2 ≠ 0) → bufCompare2 buffer sig = 0 →
      findApiReplyLoop buffer (pre ++ (key, sig) :: post) = some key := by
  intro pre
  induction pre with
  | nil => intro post _ hs; simp [findApiReplyLoop, hs]
  | cons p rest ih =>
    intro post h hs
    have hp : bufCompare2 buffer p.2 ≠ 0 := h p (List.mem_cons_self _ _)
    simp only [List.cons_append, findApiReplyLoop, hp, if_false]
    exact ih post (fun q hq => h q (List.mem_cons_of_mem _ hq)) hs

/-- When no delivered frame is accepted, the listener of an armed wait
performs no action at all after the timer has settled the wait. -/
theorem lingering_no_accept {accept : List Nat → Bool} :
    ∀ {events : List Event},
      (∀ b, Event.data b ∈ events → accept b = false) →
      lingering accept events = [] := by
  intro events
  induction events with
  | nil => intro _; rfl
  | cons e rest ih =>
    intro h
    cases e with
    | timerFired =>
      exact ih fun b hb => h b (List.mem_cons_of_mem _ hb)
    | data b =>
      have hb : accept b = false := h b (List.mem_cons_self _ _)
      simp only [lingering, hb, Bool.false_eq_true, if_false]
      exact ih fun c hc => h c (List.mem_cons_of_mem _ hc)

/-- When no delivered frame is accepted, the whole wait performs no
endpoint action beyond the arming ones: in particular the poll is never
stopped and the listener is never removed. -/
theorem processRead_no_accept {accept : List Nat → Bool} :
    ∀ {events : List Event},
      (∀ b, Event.data b ∈ events → accept b = false) →
      (processRead accept events).2 = [] := by
  intro events
  induction events with
  | nil => intro _; rfl
  | cons e rest ih =>
    intro h
    cases e with
    | timerFired =>
      simp only [processRead]
      exact lingering_no_accept fun b hb => h b (List.mem_cons_of_mem _ hb)
    | data b =>
      have hb : accept b = false := h b (List.mem_cons_self _ _)
      simp only [processRead, hb, Bool.false_eq_true, if_false]
      exact ih fun c hc => h c (List.mem_cons_of_mem _ hc)

/-- With a single registered listener, only that listener's wait can
fire. -/
theorem firingWaits_single {l : Nat × (List Nat → Bool)} {b : List Nat} {i : Nat}
    (h : i ∈ firingWaits [l] b) : i = l.1 := by
  simp only [firingWaits, List.filterMap_cons, List.filterMap_nil] at h
  by_cases hb : l.2 b = true
  · simp [hb] at h
    exact h
  · simp only [Bool.not_eq_true] at hb
    simp [hb] at h

/-! ### The claims -/

/-- C4: for every command tag and every well-formed (byte-sized) field
assignment the encoder produces a frame of exactly the documented
length, with each documented offset equal to the corresponding input
field and every padding offset equal to zero; in particular
`color(led=1, 255, 0, 0)` yields the 5 bytes `[opcode, 1, 255, 0, 0]`
and `strobe` yields an 8-byte frame whose offset 6 is 0 for all
inputs.  The frame is independent of the uninitialized buffer contents
`junk`. -/
theorem claim_C4_encode_layout (junk : Nat → Nat)
    (char led red green blue time rpt wtype speed ptn : Nat)
    (hc : char ≤ 255) (hl : led ≤ 255) (hr : red ≤ 255) (hg : green ≤ 255)
    (hb : blue ≤ 255) (ht : time ≤ 255) (hp : rpt ≤ 255) (hw : wtype ≤ 255)
    (hs : speed ≤ 255) (hn : ptn ≤ 255) :
    encFrame (simpleColor junk char) = some [COMMAND_SET_COLOR_SIMPLE, char]
    ∧ encFrame (color junk led red green blue) =
        some [COMMAND_SET_COLOR_NO_FADE, led, red, green, blue]
    ∧ encFrame (colorFade junk led red green blue time) =
        some [COMMAND_SET_COLOR_FADE, led, red, green, blue, time]
    ∧ encFrame (strobe junk led red green blue time rpt) =
        some [COMMAND_STROBE, led, red, green, blue, time, 0, rpt]
    ∧ encFrame (wave junk wtype red green blue rpt speed) =
        some [COMMAND_WAVE, wtype, red, green, blue, 0, rpt, speed]
    ∧ encFrame (pattern junk ptn rpt) = some [COMMAND_PATTERN, ptn, rpt]
    ∧ encFrame (deviceInfoFrame junk) = some [COMMAND_DEVICE_INFO] := by
  refine ⟨?_, ?_, ?_, ?_, ?_, ?_, ?_⟩ <;>
    simp [encFrame, simpleColor, color, colorFade, strobe, wave, pattern, deviceInfoFrame,
      setWriteBufferByte, writeUInt8, startEnc, resetWriteBuffer,
      BYTE_COMMAND, BYTE_LED, BYTE_RED, BYTE_GREEN, BYTE_BLUE, BYTE_TIME,
      BYTE_STROBE_PADDING, BYTE_STROBE_REPEAT, BYTE_WAVE_TYPE, BYTE_WAVE_PADDING,
      BYTE_WAVE_REPEAT, BYTE_WAVE_SPEED, BYTE_PATTERN_ID, BYTE_PATTERN_REPEAT,
      COMMAND_SET_COLOR_SIMPLE, COMMAND_SET_COLOR_NO_FADE, COMMAND_SET_COLOR_FADE,
      COMMAND_STROBE, COMMAND_WAVE, COMMAND_PATTERN, COMMAND_DEVICE_INFO,
      hc, hl, hr, hg, hb, ht, hp, hw, hs, hn, Buf.toFrame, List.range_succ]

/-- Witness for C4 at concrete inputs: the spec's end-to-end scenarios
1 and 2. -/
theorem claim_C4_encode_layout_witness :
    encFrame (color (fun _ => 171) 1 255 0 0) =
      some [COMMAND_SET_COLOR_NO_FADE, 1, 255, 0, 0]
    ∧ encFrame (strobe (fun _ => 171) 255 10 20 30 5 3) =
      some [COMMAND_STROBE, 255, 10, 20, 30, 5, 0, 3] :=
  ⟨(claim_C4_encode_layout (fun _ => 171) 2 1 255 0 0 5 3 2 4 6
      (by decide) (by decide) (by decide) (by decide) (by decide)
      (by decide) (by decide) (by decide) (by decide) (by decide)).2.1,
   (claim_C4_encode_layout (fun _ => 171) 2 255 10 20 30 5 3 2 4 6
      (by decide) (by decide) (by decide) (by decide) (by decide)
      (by decide) (by decide) (by decide) (by decide) (by decide)).2.2.2.1⟩

/-- C8: for every command method, every byte offset of the frame
defined by the layout for that command tag is written exactly once
before transmission (the write log is exactly `[0, 1, …, len-1]`), and
no offset is left at an indeterminate value (the transmitted frame
does not depend on the uninitialized buffer contents). -/
theorem claim_C8_every_offset_written_once (junk junk' : Nat → Nat)
    (char led red green blue time rpt wtype speed ptn : Nat)
    (hc : char ≤ 255) (hl : led ≤ 255) (hr : red ≤ 255) (hg : green ≤ 255)
    (hb : blue ≤ 255) (ht : time ≤ 255) (hp : rpt ≤ 255) (hw : wtype ≤ 255)
    (hs : speed ≤ 255) (hn : ptn ≤ 255) :
    encWrites (simpleColor junk char) = some [0, 1]
    ∧ encWrites (color junk led red green blue) = some [0, 1, 2, 3, 4]
    ∧ encWrites (colorFade junk led red green blue time) = some [0, 1, 2, 3, 4, 5]
    ∧ encWrites (strobe junk led red green blue time rpt) = some [0, 1, 2, 3, 4, 5, 6, 7]
    ∧ encWrites (wave junk wtype red green blue rpt speed) = some [0, 1, 2, 3, 4, 5, 6, 7]
    ∧ encWrites (pattern junk ptn rpt) = some [0, 1, 2]
    ∧ encWrites (deviceInfoFrame junk) = some [0]
    ∧ encFrame (simpleColor junk char) = encFrame (simpleColor junk' char)
    ∧ encFrame (color junk led red green blue) = encFrame (color junk' led red green blue)
    ∧ encFrame (colorFade junk led red green blue time) =
        encFrame (colorFade junk' led red green blue time)
    ∧ encFrame (strobe junk led red green blue time rpt) =
        encFrame (strobe junk' led red green blue time rpt)
    ∧ encFrame (wave junk wtype red green blue rpt speed) =
        encFrame (wave junk' wtype red green blue rpt speed)
    ∧ encFrame (pattern junk ptn rpt) = encFrame (pattern junk' ptn rpt)
    ∧ encFrame (deviceInfoFrame junk) = encFrame (deviceInfoFrame junk') := by
  refine ⟨?_, ?_, ?_, ?_, ?_, ?_, ?_, ?_, ?_, ?_, ?_, ?_, ?_, ?_⟩ <;>
    simp [encFrame, encWrites, simpleColor, color, colorFade, strobe, wave, pattern,
      deviceInfoFrame, setWriteBufferByte, writeUInt8, startEnc, resetWriteBuffer,
      BYTE_COMMAND, BYTE_LED, BYTE_RED, BYTE_GREEN, BYTE_BLUE, BYTE_TIME,
      BYTE_STROBE_PADDING, BYTE_STROBE_REPEAT, BYTE_WAVE_TYPE, BYTE_WAVE_PADDING,
      BYTE_WAVE_REPEAT, BYTE_WAVE_SPEED, BYTE_PATTERN_ID, BYTE_PATTERN_REPEAT,
      COMMAND_SET_COLOR_SIMPLE, COMMAND_SET_COLOR_NO_FADE, COMMAND_SET_COLOR_FADE,
      COMMAND_STROBE, COMMAND_WAVE, COMMAND_PATTERN, COMMAND_DEVICE_INFO,
      hc, hl, hr, hg, hb, ht, hp, hw, hs, hn, Buf.toFrame, List.range_succ]

/-- Witness for C8 at concrete inputs, with two distinct junk
fillings of the uninitialized buffer. -/
theorem claim_C8_every_offset_written_once_witness :
    encWrites (strobe (fun _ => 13) 255 10 20 30 5 3) = some [0, 1, 2, 3, 4, 5, 6, 7]
    ∧ encFrame (pattern (fun _ => 13) 6 3) = encFrame (pattern (fun i => i + 99) 6 3) :=
  ⟨(claim_C8_every_offset_written_once (fun _ => 13) (fun i => i + 99) 2 255 10 20 30 5 3 2 4 6
      (by decide) (by decide) (by decide) (by decide) (by decide)
      (by decide) (by decide) (by decide) (by decide) (by decide)).2.2.2.1,
   (claim_C8_every_offset_written_once (fun _ => 13) (fun i => i + 99) 2 255 10 20 30 5 3 2 4 6
      (by decide) (by decide) (by decide) (by decide) (by decide)
      (by decide) (by decide) (by decide) (by decide)
      (by decide)).2.2.2.2.2.2.2.2.2.2.2.2.1⟩

/-- C1 (code bug): the data listener installed by `readFromDeviceUntil`
tests the *truthiness* of `buffer.compare(type, 0, 2, 0, 2)`, which is
nonzero exactly when the two-byte prefixes differ — so the wait resolves
with a frame whose prefix differs from `type`, and a frame whose prefix
equals `type` never resolves it (the wait then times out).  This is the
opposite of the documented behavior ("read from the device until a
specified type is found") and of the correct `=== 0` test used by
`findApiReply`. -/
theorem claim_C1_accept_inverted :
    readUntilAccept [0x80, 0x00] [0x01, 0x02] = true
    ∧ readUntilAccept [0x80, 0x00] [0x80, 0x00, 0x07] = false
    ∧ (readFromDeviceUntilRun [0x80, 0x00] [Event.data [0x01, 0x02]]).1 =
        Outcome.resolved [0x01, 0x02]
    ∧ (readFromDeviceUntilRun [0x80, 0x00]
        [Event.data [0x80, 0x00, 0x07], Event.timerFired]).1 = Outcome.timedOut := by
  decide

/-- C2 counterexample: a `getDeviceInfo` wait whose transport never
emits data does not time out — it stays pending (no timer is armed by
`getDeviceInfo`; the 1900 ms deadline lives only in
`readFromDeviceUntil`, which `getDeviceInfo` does not call). -/
theorem claim_C2_counterexample :
    (getDeviceInfoRun []).1 = Outcome.pending
    ∧ (getDeviceInfoRun []).1 ≠ Outcome.timedOut := by
  decide

/-- C2 (amended): a `getDeviceInfo` call whose transport never emits a
DeviceInfo frame (in particular, never emits data at all) remains
pending forever instead of resolving as a timeout; the ~1900 ms policy
constant exists, but only in `readFromDeviceUntil`, whose timer does
produce a timeout settlement. -/
theorem claim_C2_getDeviceInfo_never_times_out (frames : List (List Nat))
    (h : ∀ b ∈ frames, isDeviceInfoBuffer b = false) :
    (getDeviceInfoRun frames).1 = Outcome.pending
    ∧ READ_UNTIL_TIMEOUT_MS = 1900
    ∧ (readFromDeviceUntilRun [0, 0] [Event.timerFired]).1 = Outcome.timedOut := by
  refine ⟨?_, rfl, by decide⟩
  rw [getDeviceInfoRun_pending h]

/-- Witness for C2 (amended): two non-DeviceInfo frames leave the wait
pending. -/
theorem claim_C2_getDeviceInfo_never_times_out_witness :
    (getDeviceInfoRun [[1, 2], [3]]).1 = Outcome.pending :=
  (claim_C2_getDeviceInfo_never_times_out [[1, 2], [3]] (by decide)).1

/-- C3 counterexample: `findApiReply` does not return an `Unrecognized`
value — on a buffer matching no signature whose byte 0 differs from the
DEVICE_INFO opcode it throws (`throw new Error(...)`, its own doc
comment says `@throws`), refuting "never raises an error". -/
theorem claim_C3_counterexample :
    findApiReply sampleReplyTable [0xFF, 0xFF] = Except.error unrecognizedReplyMsg := by
  rfl

/-- C3 (amended): classification is total in coverage — for every byte
sequence of at least 2 bytes it yields exactly one outcome: either a
key of the reply enumeration, or the DeviceInfo kind, or the
unrecognized-reply *error*; the unrecognized case is thrown rather than
returned as a value, and it occurs precisely when no signature matches
and byte 0 differs from the DEVICE_INFO opcode. -/
theorem claim_C3_classification_total (reply : List (String × List Nat))
    (buffer : List Nat) (_hlen : 2 ≤ buffer.length) :
    ((findApiReply reply buffer).isOk = true
      ∨ findApiReply reply buffer = .error unrecognizedReplyMsg)
    ∧ (findApiReply reply buffer = .error unrecognizedReplyMsg
        ↔ (findApiReplyLoop buffer reply = none ∧ isDeviceInfoBuffer buffer = false))
    ∧ (∀ key, findApiReply reply buffer = .ok key →
        key ∈ reply.map Prod.fst ∨ key = "DEVICE_INFO") := by
  unfold findApiReply
  cases h : findApiReplyLoop buffer reply with
  | some key =>
    refine ⟨Or.inl rfl, ?_, ?_⟩
    · simp
    · intro k hk
      simp only [Except.ok.injEq] at hk
      exact Or.inl (findApiReplyLoop_mem (hk ▸ h))
  | none =>
    by_cases hd : isDeviceInfoBuffer buffer = true
    · refine ⟨Or.inl (by rw [if_pos hd]; rfl), ?_, ?_⟩
      · simp [hd]
      · intro k hk
        simp [hd] at hk
        exact Or.inr hk.symm
    · simp only [Bool.not_eq_true] at hd
      refine ⟨Or.inr (by simp [hd]), by simp [hd], ?_⟩
      intro k hk
      simp [hd] at hk

/-- Witness for C3 (amended) at a concrete DeviceInfo-prefixed buffer. -/
theorem claim_C3_classification_total_witness :
    (findApiReply sampleReplyTable [0x80, 0x01, 0x09]).isOk = true
    ∨ findApiReply sampleReplyTable [0x80, 0x01, 0x09] = .error unrecognizedReplyMsg :=
  (claim_C3_classification_total sampleReplyTable [0x80, 0x01, 0x09] (by decide)).1

/-- C5: `findApiReply` compares only the first two bytes of the input
(the result is determined by the two-byte prefix, trailing bytes are
irrelevant), walks the reply enumeration in order and returns the first
matching signature's key; when no signature matches and byte 0 equals
the DEVICE_INFO opcode it returns the DeviceInfo kind — not an
unrecognized outcome. -/
theorem claim_C5_first_match_in_order :
    (∀ (reply : List (String × List Nat)) (b1 b2 : List Nat),
        b1.take 2 = b2.take 2 → findApiReply reply b1 = findApiReply reply b2)
    ∧ (∀ (pre post : List (String × List Nat)) (key : String) (sig buffer : List Nat),
        (∀ p ∈ pre, bufCompare2 buffer p.2 ≠ 0) → bufCompare2 buffer sig = 0 →
        findApiReply (pre ++ (key, sig) :: post) buffer = .ok key)
    ∧ (∀ (reply : List (String × List Nat)) (buffer : List Nat),
        (∀ p ∈ reply, bufCompare2 buffer p.2 ≠ 0) →
        buffer.getD 0 0 = COMMAND_DEVICE_INFO →
        findApiReply reply buffer = .ok "DEVICE_INFO") := by
  refine ⟨?_, ?_, ?_⟩
  · intro reply b1 b2 h
    unfold findApiReply
    rw [findApiReplyLoop_congr h reply]
    have hd : isDeviceInfoBuffer b1 = isDeviceInfoBuffer b2 := by
      unfold isDeviceInfoBuffer
      rw [take2_getD0 h]
    rw [hd]
  · intro pre post key sig buffer h hs
    unfold findApiReply
    rw [findApiReplyLoop_first post h hs]
  · intro reply buffer h h0
    unfold findApiReply
    rw [findApiReplyLoop_none h]
    have hd : isDeviceInfoBuffer buffer = true := by
      unfold isDeviceInfoBuffer
      rw [h0]
      simp
    rw [if_pos hd]

/-- Witness for C5: a fresh signature appended after the sample table
matches first on its own prefix, regardless of trailing bytes. -/
theorem claim_C5_first_match_in_order_witness :
    findApiReply (sampleReplyTable ++ [("NEW_REPLY", [0x07, 0x07])]) [0x07, 0x07, 0x55] =
      .ok "NEW_REPLY" :=
  claim_C5_first_match_in_order.2.1 sampleReplyTable [] "NEW_REPLY" [0x07, 0x07]
    [0x07, 0x07, 0x55] (by decide) (by decide)

/-- C6: the arbitration of a wait settles exactly once.  Whichever
decisive event comes first in the interleaving wins: a timer preceded
by no accepted frame yields `timedOut` and later events have no
caller-visible effect; an accepted frame preceded by neither the timer
nor another accepted frame yields `resolved` with exactly that frame;
a trace containing the timer never stays pending; and when an accepted
frame and the timer fire back to back, each order produces exactly its
own single outcome. -/
theorem claim_C6_settles_exactly_once :
    (∀ (accept : List Nat → Bool) (pre post : List Event),
        (∀ b, Event.data b ∈ pre → accept b = false) →
        (processRead accept (pre ++ Event.timerFired :: post)).1 = .timedOut)
    ∧ (∀ (accept : List Nat → Bool) (pre post : List Event) (b : List Nat),
        (∀ c, Event.data c ∈ pre → accept c = false) →
        Event.timerFired ∉ pre → accept b = true →
        (processRead accept (pre ++ Event.data b :: post)).1 = .resolved b)
    ∧ (∀ (accept : List Nat → Bool) (events : List Event),
        Event.timerFired ∈ events → (processRead accept events).1 ≠ .pending)
    ∧ (∀ (accept : List Nat → Bool) (b : List Nat), accept b = true →
        (processRead accept [Event.data b, Event.timerFired]).1 = .resolved b
        ∧ (processRead accept [Event.timerFired, Event.data b]).1 = .timedOut) := by
  refine ⟨?_, ?_, ?_, ?_⟩
  · intro accept pre post h
    exact processRead_timer_first post h
  · intro accept pre post b h ht hb
    exact processRead_data_first post h ht hb
  · intro accept events h
    exact processRead_ne_pending h
  · intro accept b hb
    exact ⟨by simp [processRead, hb], rfl⟩

/-- Witness for C6: a matching frame one step before the timer resolves;
the reverse order times out. -/
theorem claim_C6_settles_exactly_once_witness :
    (processRead (fun c => c.getD 0 0 == 1) [Event.data [1, 9], Event.timerFired]).1 =
      .resolved [1, 9]
    ∧ (processRead (fun c => c.getD 0 0 == 1) [Event.timerFired, Event.data [1, 9]]).1 =
      .timedOut :=
  claim_C6_settles_exactly_once.2.2.2 (fun c => c.getD 0 0 == 1) [1, 9] (by decide)

/-- C7 counterexample: a wait settled by the timeout performs *no*
teardown — the complete action log is just the arming actions, so the
poll keeps running (`startPoll` with no `stopPoll`) and the data
listener stays subscribed (the only `removeAllListeners` is the arming
one, executed before the listener is added, never after settlement). -/
theorem claim_C7_counterexample :
    readFromDeviceUntilRun [0x80, 0x00] [Event.timerFired] =
      (Outcome.timedOut,
        [Action.removeAllListenersData, Action.addDataListener, Action.startPoll])
    ∧ Action.stopPoll ∉ (readFromDeviceUntilRun [0x80, 0x00] [Event.timerFired]).2 := by
  decide

/-- C7 (amended): each `readFromDeviceUntil` call arms exactly one
subscribe and one startPoll (after unconditionally clearing previous
listeners), but settlement does not tear them down: the listener is
never removed within the call, and the poll is stopped only by an
accepted frame — a wait that settles with no accepted frame performs
nothing beyond the arming actions, leaving the poll running and the
listener attached until the next call re-arms. -/
theorem claim_C7_no_teardown_on_settlement :
    (∀ (type : List Nat) (events : List Event),
        (readFromDeviceUntilRun type events).2.count Action.addDataListener = 1
        ∧ (readFromDeviceUntilRun type events).2.count Action.removeAllListenersData = 1
        ∧ (readFromDeviceUntilRun type events).2.count Action.startPoll = 1
        ∧ (readFromDeviceUntilRun type events).2.take 3 =
            [Action.removeAllListenersData, Action.addDataListener, Action.startPoll])
    ∧ (∀ (type : List Nat) (events : List Event),
        (∀ b, Event.data b ∈ events → readUntilAccept type b = false) →
        (readFromDeviceUntilRun type events).2 =
          [Action.removeAllListenersData, Action.addDataListener, Action.startPoll]) := by
  constructor
  · intro type events
    have htail : ∀ x ∈ (processRead (readUntilAccept type) events).2, x = Action.stopPoll :=
      fun x hx => processRead_only_stopPoll hx
    have hadd : Action.addDataListener ∉ (processRead (readUntilAccept type) events).2 :=
      fun hmem => by have := htail _ hmem; simp at this
    have hrem : Action.removeAllListenersData ∉ (processRead (readUntilAccept type) events).2 :=
      fun hmem => by have := htail _ hmem; simp at this
    have hstart : Action.startPoll ∉ (processRead (readUntilAccept type) events).2 :=
      fun hmem => by have := htail _ hmem; simp at this
    refine ⟨?_, ?_, ?_, ?_⟩
    · simp [readFromDeviceUntilRun, List.count_append, List.count_eq_zero.mpr hadd,
        List.count_cons, List.count_nil]
    · simp [readFromDeviceUntilRun, List.count_append, List.count_eq_zero.mpr hrem,
        List.count_cons, List.count_nil]
    · simp [readFromDeviceUntilRun, List.count_append, List.count_eq_zero.mpr hstart,
        List.count_cons, List.count_nil]
    · simp [readFromDeviceUntilRun, List.take_append_eq_append_take]
  · intro type events h
    simp [readFromDeviceUntilRun, processRead_no_accept h]

/-- Witness for C7 (amended): the sought type itself arrives (which the
inverted check does not accept) and then the timer fires — the call
still performs only its arming actions. -/
theorem claim_C7_no_teardown_on_settlement_witness :
    (readFromDeviceUntilRun [0x80, 0x00]
        [Event.data [0x80, 0x00], Event.timerFired]).2 =
      [Action.removeAllListenersData, Action.addDataListener, Action.startPoll] :=
  claim_C7_no_teardown_on_settlement.2 [0x80, 0x00]
    [Event.data [0x80, 0x00], Event.timerFired]
    (fun b hb => by
      simp at hb
      simp [hb, readUntilAccept, bufCompare2, lexCompareBytes, jsTruthyInt])

/-- C9: arming a wait (`readFromDeviceUntil` and `getDeviceInfo` both
start with `removeAllListeners('data')` then `on('data', …)`) leaves
exactly the new listener registered whatever was registered before; so
at most one data listener exists per session, and after a re-arm an
earlier still-pending wait can never fire its success path — any frame
delivered afterwards fires only the new wait. -/
theorem claim_C9_rearm_replaces_listener :
    (∀ (prev : List (Nat × (List Nat → Bool))) (l : Nat × (List Nat → Bool)),
        armDataListener prev l = [l] ∧ (armDataListener prev l).length = 1)
    ∧ (∀ (prev : List (Nat × (List Nat → Bool))) (l1 l2 : Nat × (List Nat → Bool))
        (b : List Nat) (i : Nat),
        i ∈ firingWaits (armDataListener (armDataListener prev l1) l2) b → i = l2.1)
    ∧ (∀ (prev : List (Nat × (List Nat → Bool))) (l1 l2 : Nat × (List Nat → Bool))
        (b : List Nat),
        l1.1 ≠ l2.1 →
        l1.1 ∉ firingWaits (armDataListener (armDataListener prev l1) l2) b) := by
  refine ⟨fun prev l => ⟨rfl, rfl⟩, ?_, ?_⟩
  · intro prev l1 l2 b i hi
    exact firingWaits_single hi
  · intro prev l1 l2 b hne hmem
    exact hne (firingWaits_single hmem)

/-- Witness for C9: after wait 2 replaces wait 1, a frame both would
accept fires only wait 2. -/
theorem claim_C9_rearm_replaces_listener_witness :
    (1 : Nat) ∉
      firingWaits
        (armDataListener (armDataListener [] (1, fun _ => true)) (2, fun _ => true))
        [0x80, 0x00] :=
  claim_C9_rearm_replaces_listener.2.2 [] (1, fun _ => true) (2, fun _ => true)
    [0x80, 0x00] (by decide)

/-- C10: for every table name present in the API constants object and
every needle, `getApiValue` uppercases both arguments, returns the
table's entry for the uppercased needle when present and `null`
(`none`) when not — in either case an ordinary return, never a throw —
and is case-insensitive in both arguments. -/
theorem claim_C10_getApiValue_case_insensitive
    (api : List (String × List (String × Nat))) (h n : String)
    (table : List (String × Nat)) (htab : api.lookup (jsToUpper h) = some table) :
    getApiValue api h n = .ok (table.lookup (jsToUpper n))
    ∧ (getApiValue api h n).isOk = true
    ∧ (∀ n', jsToUpper n' = jsToUpper n → getApiValue api h n' = getApiValue api h n)
    ∧ (∀ h', jsToUpper h' = jsToUpper h → getApiValue api h' n = getApiValue api h n) := by
  refine ⟨?_, ?_, ?_, ?_⟩
  · simp [getApiValue, htab]
  · simp [getApiValue, htab, Except.isOk, Except.toBool]
  · intro n' hn
    simp [getApiValue, htab, hn]
  · intro h' hh
    simp [getApiValue, hh]

/-- Witness for C10: a lowercase haystack and needle find the uppercase
`COMMAND.STROBE` entry. -/
theorem claim_C10_getApiValue_case_insensitive_witness :
    getApiValue [("COMMAND", [("STROBE", 3)])] "command" "strobe" = .ok (some 3) :=
  (claim_C10_getApiValue_case_insensitive [("COMMAND", [("STROBE", 3)])]
    "command" "strobe" [("STROBE", 3)] (by decide)).1.trans
    (congrArg Except.ok (by decide))

end Luxafor
